import Mathlib

/-!
Verification of the vesper dual-path verification framework.

Shallow embedding of the Python source in `vesper_verification` and
`vesper_runtime`:

* dynamically-typed Python values become the inductive `Value`
  (`None`, `bool`, `int`, `float`, `Decimal`, `str`, `list`, `tuple`, `dict`);
* Python `float` is modelled as `JNum`: an exact rational together with the
  special values NaN and signed infinity (binary64 rounding is not modelled;
  every concrete number appearing in the claims is far from the rounding
  scale, so no verdict depends on it);
* exceptions become `Except Err`; a raised exception is `Except.error`;
* nondeterministic environment inputs (the `random.random()` draw, the md5
  digest of the standard library, `json.dumps`, wall-clock time, uuid trace
  ids) are threaded as explicit parameters or elided when they cannot
  influence the claimed behaviour.
-/

abbrev Err := String

/-- Python float semantics: NaN, signed infinity, or a finite value modelled
as an exact rational. -/
inductive JNum where
  | nan : JNum
  | inf : Bool → JNum
  | fin : ℚ → JNum
deriving DecidableEq, Repr

/-- Dynamically typed Python value as used by handler inputs and outputs.
Mappings are insertion-ordered association lists, mirroring Python dicts. -/
inductive Value where
  | vnull : Value
  | vbool : Bool → Value
  | vint : ℤ → Value
  | vfloat : JNum → Value
  | vdec : ℚ → Value
  | vstr : String → Value
  | vlist : List Value → Value
  | vtup : List Value → Value
  | vdict : List (String × Value) → Value

/-- Handler output mapping (and input mapping): a Python dict of values. -/
abbrev Output := List (String × Value)

/-- Association-list lookup mirroring Python `d[key]` / `key in d`. -/
def dlookup (d : List (String × Value)) (k : String) : Option Value :=
  match d with
  | [] => none
  | (k', v) :: t => if k' = k then some v else dlookup t k

theorem sizeOf_dlookup {d : List (String × Value)} {k : String} {v : Value}
    (h : dlookup d k = some v) : sizeOf v < sizeOf d := by
  induction d with
  | nil => simp [dlookup] at h
  | cons hd t ih =>
    obtain ⟨k', v'⟩ := hd
    by_cases hk : k' = k
    · simp [dlookup, hk] at h
      subst h
      simp
      omega
    · simp [dlookup, hk] at h
      have := ih h
      simp
      omega

/-- model of `math.isnan`. -/
def JNum.isNan : JNum → Bool
  | .nan => true
  | _ => false

/-- model of `math.isinf`. -/
def JNum.isInf : JNum → Bool
  | .inf _ => true
  | _ => false

/-- Python `f > 0` on a float. -/
def JNum.isPos : JNum → Bool
  | .nan => false
  | .inf p => p
  | .fin a => decide (0 < a)

/-- Python `abs(f1 - f2)` on floats, with IEEE special values: any NaN operand
propagates, infinities of equal sign subtract to NaN, any other infinite
operand gives +inf. -/
def JNum.absSub : JNum → JNum → JNum
  | .nan, _ => .nan
  | _, .nan => .nan
  | .inf p, .inf q => if p = q then .nan else .inf true
  | .inf _, .fin _ => .inf true
  | .fin _, .inf _ => .inf true
  | .fin a, .fin b => .fin |a - b|

/-- Python `abs(f)`. -/
def JNum.absJ : JNum → JNum
  | .nan => .nan
  | .inf _ => .inf true
  | .fin a => .fin |a|

/-- Python `f <= e` against a finite float `e`: NaN compares false, -inf is
below everything, +inf above. -/
def JNum.leQ : JNum → ℚ → Bool
  | .nan, _ => false
  | .inf p, _ => !p
  | .fin a, e => decide (a ≤ e)

/-- Python `abs(f) > 1.0`. -/
def JNum.gtOneAbs : JNum → Bool
  | .nan => false
  | .inf _ => true
  | .fin a => decide (1 < |a|)

/-- Python `max(abs(f1), abs(f2))`. -/
def JNum.maxAbs : JNum → JNum → JNum
  | .nan, _ => .nan
  | _, .nan => .nan
  | .inf _, _ => .inf true
  | _, .inf _ => .inf true
  | .fin a, .fin b => .fin (max |a| |b|)

/-- Python float division. Division by finite zero raises ZeroDivisionError in
Python; the comparator only divides by a maximum that exceeds 1, so the case
is unreachable and modelled as NaN. -/
def JNum.divJ : JNum → JNum → JNum
  | .nan, _ => .nan
  | _, .nan => .nan
  | .inf _, .inf _ => .nan
  | .inf p, .fin b => if b = 0 then .nan else .inf (p = decide (0 < b))
  | .fin _, .inf _ => .fin 0
  | .fin a, .fin b => if b = 0 then .nan else .fin (a / b)

/-- single structured difference: the `path` and `type` fields of the
difference dicts built by `OutputComparator._compare_recursive` (the remaining
fields carry the offending values for human triage and are reporting payload
only). -/
structure Diff where
  path : String
  kind : String
deriving DecidableEq, Repr

/-- report returned by `OutputComparator.compare` when outputs diverge:
`{"differences": [...], "count": len(...)}`. -/
structure DiffReport where
  differences : List Diff
  count : ℕ
deriving DecidableEq, Repr

/-- `OutputComparator` configuration. `parseTs` stands for the standard
library `datetime.fromisoformat` (after the `Z` → `+00:00` replacement),
returning an epoch timestamp in milliseconds, `none` modelling a raised
ValueError/TypeError. -/
structure OutputComparator where
  epsilon : ℚ
  timestampToleranceMs : ℚ
  parseTs : String → Option ℚ

/-- Python `float(v)` on the numeric tower `(bool, int, float, Decimal)`;
`none` for non-numeric values. -/
def numericValue : Value → Option JNum
  | .vbool b => some (.fin (if b then 1 else 0))
  | .vint n => some (.fin (n : ℚ))
  | .vfloat x => some x
  | .vdec q => some (.fin q)
  | _ => none

/-- Python `type(v1) is type(v2)` on our value universe. -/
def sameCtor : Value → Value → Bool
  | .vnull, .vnull => true
  | .vbool _, .vbool _ => true
  | .vint _, .vint _ => true
  | .vfloat _, .vfloat _ => true
  | .vdec _, .vdec _ => true
  | .vstr _, .vstr _ => true
  | .vlist _, .vlist _ => true
  | .vtup _, .vtup _ => true
  | .vdict _, .vdict _ => true
  | _, _ => false

/-- Python `isinstance(v, (list, tuple))`. -/
def isSeq : Value → Bool
  | .vlist _ => true
  | .vtup _ => true
  | _ => false

/-- Python `v is None`. -/
def isNull : Value → Bool
  | .vnull => true
  | _ => false

/-- Python `isinstance(v, (float, Decimal))`. -/
def isFloatDec : Value → Bool
  | .vfloat _ => true
  | .vdec _ => true
  | _ => false

/-- `OutputComparator._types_compatible`: same runtime type, both numeric
(`int`/`float`/`Decimal`, with `bool` an `int` subclass), or both sequences. -/
def typesCompatible (v1 v2 : Value) : Bool :=
  sameCtor v1 v2 || ((numericValue v1).isSome && (numericValue v2).isSome)
    || (isSeq v1 && isSeq v2)

/-- `OutputComparator._looks_like_timestamp`: `len(s) >= 10` and dashes at
character offsets 4 and 7. -/
def looksLikeTimestamp (s : String) : Bool :=
  s.toList.length ≥ 10 && s.toList.get? 4 == some '-' && s.toList.get? 7 == some '-'

/-- Python `v1 != v2` for the scalar fallthrough branch of
`_compare_recursive` (numbers compare across `bool`/`int`, everything else by
value). -/
def pyPrimEq (v1 v2 : Value) : Bool :=
  match numericValue v1, numericValue v2 with
  | some a, some b => a == b
  | _, _ =>
    match v1, v2 with
    | .vnull, .vnull => true
    | .vstr a, .vstr b => a == b
    | _, _ => false

/-- `OutputComparator._compare_numbers`, following the source control flow:
NaN pair equal, single NaN mismatch, infinity sign check, absolute epsilon,
then relative epsilon when a magnitude exceeds 1. -/
def compareNumbers (cmp : OutputComparator) (v1 v2 : Value) (path : String) :
    Option Diff :=
  match numericValue v1, numericValue v2 with
  | some f1, some f2 =>
    if f1.isNan && f2.isNan then none
    else if f1.isNan || f2.isNan then some ⟨path, "nan_mismatch"⟩
    else if f1.isInf && f2.isInf then
      if f1.isPos == f2.isPos then none
      else some ⟨path, "infinity_sign_mismatch"⟩
    else if (JNum.absSub f1 f2).leQ cmp.epsilon then none
    else if f1.gtOneAbs || f2.gtOneAbs then
      if ((JNum.absSub f1 f2).divJ (JNum.maxAbs f1 f2)).leQ cmp.epsilon then none
      else some ⟨path, "numeric_mismatch"⟩
    else some ⟨path, "numeric_mismatch"⟩
  | _, _ => none

/-- `OutputComparator._compare_timestamps`: parse both sides, equal iff the
absolute difference is within tolerance; on parse failure fall back to string
equality. -/
def compareTimestamps (cmp : OutputComparator) (t1 t2 : String) (path : String) :
    Option Diff :=
  match cmp.parseTs t1, cmp.parseTs t2 with
  | some a, some b =>
    if |a - b| ≤ cmp.timestampToleranceMs then none
    else some ⟨path, "timestamp_mismatch"⟩
  | _, _ =>
    if t1 ≠ t2 then some ⟨path, "value_mismatch"⟩ else none

/-- union of the key sets of two dicts, iterated deterministically (keys of
the first dict in order, then the new keys of the second); Python iterates a
`set` in unspecified order, which can permute the report but not its
emptiness. -/
def unionKeys (d1 d2 : List (String × Value)) : List String :=
  d1.map Prod.fst ++ (d2.map Prod.fst).filter (fun k => !(d1.map Prod.fst).contains k)

mutual

/-- `OutputComparator._compare_recursive`: null checks, type compatibility,
then dispatch on dicts, sequences, numbers, timestamp-like strings, and plain
scalars. -/
def compareRecursive (cmp : OutputComparator) (v1 v2 : Value) (path : String) :
    List Diff :=
  if isNull v1 && isNull v2 then []
  else if isNull v1 || isNull v2 then [⟨path, "null_mismatch"⟩]
  else if ¬ typesCompatible v1 v2 then [⟨path, "type_mismatch"⟩]
  else
    match v1, v2 with
    | .vdict d1, .vdict d2 => compareDictKeys cmp (unionKeys d1 d2) d1 d2 path
    | .vlist l1, .vlist l2 => compareLists cmp l1 l2 path
    | .vlist l1, .vtup l2 => compareLists cmp l1 l2 path
    | .vtup l1, .vlist l2 => compareLists cmp l1 l2 path
    | .vtup l1, .vtup l2 => compareLists cmp l1 l2 path
    | w1, w2 =>
      if isFloatDec w1 || isFloatDec w2 then (compareNumbers cmp w1 w2 path).toList
      else
        match w1, w2 with
        | .vstr s1, .vstr s2 =>
          if looksLikeTimestamp s1 then (compareTimestamps cmp s1 s2 path).toList
          else if s1 ≠ s2 then [⟨path, "value_mismatch"⟩] else []
        | u1, u2 => if pyPrimEq u1 u2 then [] else [⟨path, "value_mismatch"⟩]
termination_by (sizeOf v1 + sizeOf v2, 0)

/-- `OutputComparator._compare_lists`: a length mismatch plus element-wise
recursion up to the shorter length. -/
def compareLists (cmp : OutputComparator) (l1 l2 : List Value) (path : String) :
    List Diff :=
  (if l1.length ≠ l2.length then [⟨path, "length_mismatch"⟩] else [])
    ++ compareElems cmp l1 l2 path 0
termination_by (sizeOf l1 + sizeOf l2, 2)

/-- element-wise loop of `OutputComparator._compare_lists`, paths extended
with the running index. -/
def compareElems (cmp : OutputComparator) (l1 l2 : List Value) (path : String)
    (i : ℕ) : List Diff :=
  match l1, l2 with
  | x :: xs, y :: ys =>
    compareRecursive cmp x y (path ++ "[" ++ toString i ++ "]")
      ++ compareElems cmp xs ys path (i + 1)
  | _, _ => []
termination_by (sizeOf l1 + sizeOf l2, 1)

/-- key loop of `OutputComparator._compare_dicts`: asymmetric keys produce
`missing_in_python` / `missing_in_direct`, shared keys recurse. -/
def compareDictKeys (cmp : OutputComparator) (keys : List String)
    (d1 d2 : List (String × Value)) (path : String) : List Diff :=
  match keys with
  | [] => []
  | k :: ks =>
    (match h1 : dlookup d1 k, h2 : dlookup d2 k with
     | none, some _ => [⟨path ++ "." ++ k, "missing_in_python"⟩]
     | some _, none => [⟨path ++ "." ++ k, "missing_in_direct"⟩]
     | some x, some y => compareRecursive cmp x y (path ++ "." ++ k)
     | none, none => [])
      ++ compareDictKeys cmp ks d1 d2 path
termination_by (sizeOf d1 + sizeOf d2, keys.length)
decreasing_by
  all_goals simp_wf
  · exact Prod.Lex.left _ _ (by have := sizeOf_dlookup h1; have := sizeOf_dlookup h2; omega)
  · exact Prod.Lex.right _ (by omega)

end

/-- `OutputComparator.compare`: `None` (here `none`) when equal, otherwise a
report with the difference list and its count. -/
def OutputComparator.compare (cmp : OutputComparator)
    (pythonOutput directOutput : Output) : Option DiffReport :=
  let differences :=
    compareRecursive cmp (.vdict pythonOutput) (.vdict directOutput) "root"
  if differences.isEmpty then none
  else some ⟨differences, differences.length⟩

/-- generic insertion-ordered association-list lookup (Python `dict` access
by key). -/
def alookup {α : Type} (d : List (String × α)) (k : String) : Option α :=
  match d with
  | [] => none
  | (k', v) :: t => if k' = k then some v else alookup t k

/-- Python `d[k] = v` on an insertion-ordered dict: replace in place when the
key exists, append otherwise. -/
def upsert {α : Type} : List (String × α) → String → α → List (String × α)
  | [], k, v => [(k, v)]
  | (k', v') :: t, k, v => if k' = k then (k, v) :: t else (k', v') :: upsert t k v

/-- `RuntimeMetrics` of `vesper_verification.confidence`: per-node execution
counters. `last_updated` (a Python float timestamp) is an exact rational. -/
structure RuntimeMetrics where
  nodeId : String
  totalExecutions : ℕ
  divergences : ℕ
  pythonErrors : ℕ
  directErrors : ℕ
  lastUpdated : ℚ
deriving DecidableEq, Repr

/-- `ConfidenceTracker`: its single piece of state, the insertion-ordered
per-node metrics dict. -/
structure ConfidenceTracker where
  metrics : List (String × RuntimeMetrics)
deriving DecidableEq, Repr

/-- `ConfidenceTracker.MIN_SAMPLE_SIZE`. -/
def MIN_SAMPLE_SIZE : ℕ := 100

/-- `ConfidenceTracker.Z_SCORE`. -/
noncomputable def Z_SCORE : ℝ := 3.29

/-- `ConfidenceTracker.get_metrics`. -/
def ConfidenceTracker.getMetrics (tr : ConfidenceTracker) (nodeId : String) :
    Option RuntimeMetrics :=
  alookup tr.metrics nodeId

/-- `ConfidenceTracker.get_confidence`: 0.0 for unknown nodes and below the
minimum sample size, otherwise the Wilson lower bound at `Z_SCORE`, clamped at
0 from below. Python float arithmetic is modelled over the reals. -/
noncomputable def ConfidenceTracker.getConfidence (tr : ConfidenceTracker)
    (nodeId : String) : ℝ :=
  match alookup tr.metrics nodeId with
  | none => 0
  | some m =>
    if m.totalExecutions < MIN_SAMPLE_SIZE then 0
    else
      let z : ℝ := Z_SCORE
      let n : ℝ := m.totalExecutions
      let successes : ℝ := n - m.divergences
      let p : ℝ := successes / n
      let denominator : ℝ := 1 + z ^ 2 / n
      let center : ℝ := (p + z ^ 2 / (2 * n)) / denominator
      let margin : ℝ :=
        z * Real.sqrt (p * (1 - p) / n + z ^ 2 / (4 * n ^ 2)) / denominator
      max 0 (center - margin)

/-- `ConfidenceTracker.get_recommended_mode`: the confidence thresholds of the
source, returning the mode name strings. -/
noncomputable def ConfidenceTracker.getRecommendedMode (tr : ConfidenceTracker)
    (nodeId : String) : String :=
  let confidence := tr.getConfidence nodeId
  if confidence < 0.95 then "python_only"
  else if confidence < 0.999 then "canary_direct"
  else if confidence < 0.9999 then "dual_verify"
  else "direct_only"

/-- one node's entry in the `ConfidenceTracker.serialize` snapshot: the five
counter fields written per node (the node id is the surrounding dict key). -/
structure SerializedMetrics where
  totalExecutions : ℕ
  divergences : ℕ
  pythonErrors : ℕ
  directErrors : ℕ
  lastUpdated : ℚ
deriving DecidableEq, Repr

/-- `ConfidenceTracker.serialize`. -/
def ConfidenceTracker.serialize (tr : ConfidenceTracker) :
    List (String × SerializedMetrics) :=
  tr.metrics.map (fun p =>
    (p.1, ⟨p.2.totalExecutions, p.2.divergences, p.2.pythonErrors,
           p.2.directErrors, p.2.lastUpdated⟩))

/-- `ConfidenceTracker.deserialize`: rebuilds each `RuntimeMetrics` with the
dict key as its node id. -/
def ConfidenceTracker.deserialize (data : List (String × SerializedMetrics)) :
    ConfidenceTracker :=
  ⟨data.map (fun p =>
    (p.1, ⟨p.1, p.2.totalExecutions, p.2.divergences, p.2.pythonErrors,
           p.2.directErrors, p.2.lastUpdated⟩))⟩

/-- `ExecutionMode` of `vesper_verification.routing`. -/
inductive ExecutionMode where
  | pythonOnly : ExecutionMode
  | shadowDirect : ExecutionMode
  | canaryDirect : ExecutionMode
  | dualVerify : ExecutionMode
  | directOnly : ExecutionMode
deriving DecidableEq, Repr

/-- `RoutingDecision` of `vesper_verification.routing`. -/
structure RoutingDecision where
  mode : ExecutionMode
  usePython : Bool
  useDirect : Bool
  isShadow : Bool
  verifyOutputs : Bool
  reason : String
deriving DecidableEq, Repr

/-- classmethod `RoutingDecision.python_only`. -/
def RoutingDecision.pythonOnly (reason : String) : RoutingDecision :=
  ⟨.pythonOnly, true, false, false, false, reason⟩

/-- classmethod `RoutingDecision.shadow`. -/
def RoutingDecision.shadow (reason : String) : RoutingDecision :=
  ⟨.shadowDirect, true, true, true, false, reason⟩

/-- classmethod `RoutingDecision.dual_verify`. -/
def RoutingDecision.dualVerify (reason : String) : RoutingDecision :=
  ⟨.dualVerify, true, true, false, true, reason⟩

/-- classmethod `RoutingDecision.direct_only`. -/
def RoutingDecision.directOnly (reason : String) : RoutingDecision :=
  ⟨.directOnly, false, true, false, false, reason⟩

/-- `RoutingConfig`. Thresholds are compared against the real-valued
confidence; the sampling fractions are compared against rational draws. -/
structure RoutingConfig where
  canaryThreshold : ℝ
  dualVerifyThreshold : ℝ
  directOnlyThreshold : ℝ
  canaryPercentage : ℚ
  directOnlySampleRate : ℚ
  shadowModeEnabled : Bool
  nodeOverrides : List (String × ExecutionMode)

/-- default `RoutingConfig` field values. -/
noncomputable def RoutingConfig.defaults : RoutingConfig :=
  ⟨0.95, 0.999, 0.9999, 0.05, 0.01, true, []⟩

/-- environment functions used by the router, modelled abstractly: the
standard library md5 hex digest, the digest-to-integer conversion
`int(hexdigest, 16)`, and `json.dumps(obj, sort_keys=True, default=str)`.
All three are fixed pure functions of their input. -/
structure HashParams where
  md5hex : String → String
  md5int : String → ℕ
  jsonDumpsSorted : Output → String

/-- `_stable_hash`: md5 hex digest of the canonical (sorted-keys) JSON
serialization of the inputs. -/
def stableHash (P : HashParams) (obj : Output) : String :=
  P.md5hex (P.jsonDumpsSorted obj)

/-- `ExecutionRouter` state: the confidence tracker and the configuration. -/
structure ExecutionRouter where
  confidenceTracker : ConfidenceTracker
  config : RoutingConfig

/-- `ExecutionRouter._decision_for_mode`. -/
def ExecutionRouter.decisionForMode (mode : ExecutionMode) (reason : String) :
    RoutingDecision :=
  match mode with
  | .pythonOnly => RoutingDecision.pythonOnly reason
  | .shadowDirect => RoutingDecision.shadow reason
  | .canaryDirect => ⟨.canaryDirect, false, true, false, false, reason⟩
  | .dualVerify => RoutingDecision.dualVerify reason
  | .directOnly => RoutingDecision.directOnly reason

/-- `ExecutionRouter._canary_decision`: a deterministic draw from the md5 hash
of the node id and the stable hash of the inputs, reduced mod 10000 to a
fraction, against the configured canary percentage. The reason strings of the
source interpolate the configured percentages; they are modelled as fixed
strings. -/
def ExecutionRouter.canaryDecision (router : ExecutionRouter) (P : HashParams)
    (nodeId : String) (inputs : Output) : RoutingDecision :=
  let hashInput := nodeId ++ ":" ++ stableHash P inputs
  let hashValue := P.md5int hashInput
  let percentage : ℚ := (hashValue % 10000 : ℕ) / 10000
  if percentage < router.config.canaryPercentage then
    ⟨.canaryDirect, false, true, false, false, "Canary traffic to direct"⟩
  else
    ⟨.canaryDirect, true, false, false, false, "Canary traffic to Python"⟩

/-- `ExecutionRouter._direct_only_decision`: `rand` is the `random.random()`
draw, threaded explicitly. -/
def ExecutionRouter.directOnlyDecision (router : ExecutionRouter) (rand : ℚ) :
    RoutingDecision :=
  if rand < router.config.directOnlySampleRate then
    ⟨.directOnly, true, true, false, true, "Direct with sampling"⟩
  else
    RoutingDecision.directOnly "Very high confidence"

/-- `ExecutionRouter.route`: forced mode, then node override, then the
minimum-sample gate, then the confidence bands. -/
noncomputable def ExecutionRouter.route (router : ExecutionRouter)
    (P : HashParams) (nodeId : String) (inputs : Output)
    (forceMode : Option ExecutionMode) (rand : ℚ) : RoutingDecision :=
  match forceMode with
  | some m => ExecutionRouter.decisionForMode m "Forced by caller"
  | none =>
    match alookup router.config.nodeOverrides nodeId with
    | some m => ExecutionRouter.decisionForMode m "Node override"
    | none =>
      let confidence := router.confidenceTracker.getConfidence nodeId
      match alookup router.confidenceTracker.metrics nodeId with
      | none => RoutingDecision.pythonOnly "Insufficient data"
      | some m =>
        if m.totalExecutions < MIN_SAMPLE_SIZE then
          RoutingDecision.pythonOnly "Insufficient data"
        else if confidence < router.config.canaryThreshold then
          RoutingDecision.pythonOnly "Low confidence"
        else if confidence < router.config.dualVerifyThreshold then
          router.canaryDecision P nodeId inputs
        else if confidence < router.config.directOnlyThreshold then
          RoutingDecision.dualVerify "High confidence, continuous verification"
        else
          router.directOnlyDecision rand

/-- `DivergenceRecord` of `vesper_verification.divergence`. -/
structure DivergenceRecord where
  id : String
  nodeId : String
  inputs : Output
  pythonOutput : Output
  directOutput : Output
  diff : DiffReport
  timestamp : String
  mode : String
  metadata : Output

/-- `DivergenceDatabase` in-memory state: the per-node record lists and the
per-node capacity. The optional JSON snapshot file and the asyncio lock are
orthogonal to the stored contents and are elided. -/
structure DivergenceDatabase where
  maxRecordsPerNode : ℕ
  records : List (String × List DivergenceRecord)

/-- Python slice `l[-k:]`: the last `k` elements, or the whole list when
`k = 0` (negative zero slicing). -/
def takeLastPy {α : Type} (k : ℕ) (l : List α) : List α :=
  if k = 0 then l else l.drop (l.length - k)

/-- `DivergenceDatabase.store`: append to the node's list, then trim to the
last `max_records_per_node` records when over capacity. -/
def DivergenceDatabase.store (db : DivergenceDatabase)
    (record : DivergenceRecord) : DivergenceDatabase :=
  let records := (alookup db.records record.nodeId).getD []
  let appended := records ++ [record]
  let trimmed :=
    if appended.length > db.maxRecordsPerNode then
      takeLastPy db.maxRecordsPerNode appended
    else appended
  { db with records := upsert db.records record.nodeId trimmed }

/-- `DivergenceDatabase.get_by_node`: newest first, windowed by offset and
limit (`list(reversed(records))[offset : offset + limit]`). -/
def DivergenceDatabase.getByNode (db : DivergenceDatabase) (nodeId : String)
    (limit : ℕ) (offset : ℕ) : List DivergenceRecord :=
  ((((alookup db.records nodeId).getD []).reverse).drop offset).take limit

/-- `ShadowExecutor` state: the set of in-flight shadow tasks, modelled by
their request descriptors. The runtime, comparator, tracker, metrics and
divergence-store collaborators only affect the background task bodies, not
the pending set, and are elided. -/
structure ShadowExecutor where
  pendingTasks : List (String × Output)

/-- `ShadowExecutor.execute_shadow`: unconditionally creates a task and adds
it to the pending set; the source contains no capacity check and no drop
counter. -/
def ShadowExecutor.executeShadow (s : ShadowExecutor) (nodeId : String)
    (inputs : Output) : ShadowExecutor :=
  { s with pendingTasks := s.pendingTasks ++ [(nodeId, inputs)] }

/-- property `ShadowExecutor.pending_count`. -/
def ShadowExecutor.pendingCount (s : ShadowExecutor) : ℕ :=
  s.pendingTasks.length

mutual

/-- structural equality on values, standing in for the Python `!=` of
`python_output != direct_output` in the comparator-less debug path of
`_execute_dual_verify` (Python dict equality is key-order-insensitive and
coerces numerics; the claims only exercise the comparator path, where the
distinction is invisible). -/
def valueBeq : Value → Value → Bool
  | .vnull, .vnull => true
  | .vbool a, .vbool b => a == b
  | .vint a, .vint b => a == b
  | .vfloat a, .vfloat b => a == b
  | .vdec a, .vdec b => a == b
  | .vstr a, .vstr b => a == b
  | .vlist a, .vlist b => valueListBeq a b
  | .vtup a, .vtup b => valueListBeq a b
  | .vdict a, .vdict b => valueDictBeq a b
  | _, _ => false

/-- elementwise equality on value lists. -/
def valueListBeq : List Value → List Value → Bool
  | [], [] => true
  | x :: xs, y :: ys => valueBeq x y && valueListBeq xs ys
  | _, _ => false

/-- entrywise equality on value dicts. -/
def valueDictBeq : List (String × Value) → List (String × Value) → Bool
  | [], [] => true
  | (k1, x) :: xs, (k2, y) :: ys => k1 == k2 && valueBeq x y && valueDictBeq xs ys
  | _, _ => false

end

/-- `ExecutionResult` of `vesper_runtime.executor`. The wall-clock duration is
environment-supplied and recorded as 0; the uuid trace id, also
environment-supplied, is elided. -/
structure ExecutionResult where
  output : Output
  executionTimeMs : ℚ
  pathUsed : String
  success : Bool
  error : Option Err

/-- payload of `DualExecutionResult.divergence_details`: a comparator report,
the raw output pair of the comparator-less path, or `{"error": str(e)}` from
the dual-path exception handler. -/
inductive DivergenceDetails where
  | report : DiffReport → DivergenceDetails
  | rawPair : Output → Output → DivergenceDetails
  | errorDetail : Err → DivergenceDetails

/-- `DualExecutionResult` of `vesper_runtime.executor`. -/
structure DualExecutionResult where
  pythonResult : ExecutionResult
  directResult : Option ExecutionResult
  diverged : Bool
  divergenceDetails : Option DivergenceDetails

/-- property `DualExecutionResult.primary_result`. -/
def DualExecutionResult.primaryResult (d : DualExecutionResult) : ExecutionResult :=
  d.pythonResult

/-- one request through the orchestrator: because handlers are pure functions
of the inputs and a request fixes `(node_id, inputs)`, the two runtimes are
fully described by their outcome on that request. `pythonRun` is the Python
(oracle) runtime outcome, `directRun` the candidate outcome when a direct
runtime is configured (`None` otherwise), and an outcome is a returned output
dict (`ok`) or a raised exception (`error`, covering the no-handler
RuntimeError and handler failures alike). The confidence tracker, metrics
collector and shadow executor collaborators only record counters and cannot
change the returned result; they are elided. -/
structure OrchestratorCase where
  pythonRun : Except Err Output
  directRun : Option (Except Err Output)
  comparator : Option OutputComparator

/-- python-path success result (`path_used="python"`). -/
def pythonSuccess (out : Output) : ExecutionResult :=
  ⟨out, 0, "python", true, none⟩

/-- direct-path success result (`path_used="direct"`). -/
def directSuccess (out : Output) : ExecutionResult :=
  ⟨out, 0, "direct", true, none⟩

/-- failed result built in the outer exception handler of
`ExecutionOrchestrator.execute` after the fallback also failed. -/
def failedFallbackResult (e : Err) : ExecutionResult :=
  ⟨[], 0, "python", false, some e⟩

/-- `ExecutionOrchestrator._execute_python_only`: a raised handler exception
propagates (re-raised after metrics recording). -/
def OrchestratorCase.executePythonOnly (o : OrchestratorCase) :
    Except Err ExecutionResult :=
  match o.pythonRun with
  | .ok out => .ok (pythonSuccess out)
  | .error e => .error e

/-- `ExecutionOrchestrator._execute_direct`: raises when no direct runtime is
configured; a raised handler exception propagates. -/
def OrchestratorCase.executeDirect (o : OrchestratorCase) :
    Except Err ExecutionResult :=
  match o.directRun with
  | none => .error "Direct runtime not configured"
  | some (.ok out) => .ok (directSuccess out)
  | some (.error e) => .error e

/-- `ExecutionOrchestrator._execute_shadow_mode`: runs the python path and
returns its result; the fire-and-forget shadow enqueue cannot affect it. -/
def OrchestratorCase.executeShadowMode (o : OrchestratorCase) :
    Except Err ExecutionResult :=
  o.executePythonOnly

/-- `ExecutionOrchestrator._execute_canary_mode`: when routed to the direct
runtime, try it and fall back to python on failure; otherwise python only. -/
def OrchestratorCase.executeCanaryMode (o : OrchestratorCase)
    (decision : RoutingDecision) : Except Err ExecutionResult :=
  if decision.useDirect && o.directRun.isSome then
    match o.executeDirect with
    | .ok r => .ok r
    | .error _ => o.executePythonOnly
  else
    o.executePythonOnly

/-- `ExecutionOrchestrator._execute_dual_verify`: without a direct runtime,
python only (unprotected). With one, run both; on success compare (via the
comparator when configured, raw equality otherwise), record, and return both
results with the oracle first; on any exception fall back to
`_execute_python_only` inside the handler — a failure of that fallback
propagates out. `asyncio.gather` surfaces one of the raised exceptions;
which one is timing-dependent and only feeds the details payload, modelled
here as the python error when both fail. -/
def OrchestratorCase.executeDualVerify (o : OrchestratorCase) :
    Except Err DualExecutionResult :=
  match o.directRun with
  | none =>
    match o.executePythonOnly with
    | .ok r => .ok ⟨r, none, false, none⟩
    | .error e => .error e
  | some directRun =>
    match o.pythonRun, directRun with
    | .ok pythonOutput, .ok directOutput =>
      let divergedDetails : Bool × Option DivergenceDetails :=
        match o.comparator with
        | some c =>
          match c.compare pythonOutput directOutput with
          | some rep => (true, some (.report rep))
          | none => (false, none)
        | none =>
          if valueDictBeq pythonOutput directOutput then (false, none)
          else (true, some (.rawPair pythonOutput directOutput))
      .ok ⟨pythonSuccess pythonOutput, some (directSuccess directOutput),
           divergedDetails.1, divergedDetails.2⟩
    | .error e, _ =>
      match o.executePythonOnly with
      | .ok r => .ok ⟨r, none, true, some (.errorDetail e)⟩
      | .error e2 => .error e2
    | .ok _, .error e =>
      match o.executePythonOnly with
      | .ok r => .ok ⟨r, none, true, some (.errorDetail e)⟩
      | .error e2 => .error e2

/-- `ExecutionOrchestrator._execute_direct_only`: python when no direct
runtime; dual verify returning the direct result when sampling requested
verification; plain direct otherwise (exceptions propagate to the caller's
handler). -/
def OrchestratorCase.executeDirectOnly (o : OrchestratorCase)
    (decision : RoutingDecision) : Except Err ExecutionResult :=
  match o.directRun with
  | none => o.executePythonOnly
  | some _ =>
    if decision.verifyOutputs then
      match o.executeDualVerify with
      | .ok dual =>
        .ok (match dual.directResult with
             | some dr => dr
             | none => dual.pythonResult)
      | .error e => .error e
    else
      o.executeDirect

/-- `ExecutionOrchestrator._adjust_decision_for_mode`. -/
def adjustDecisionForMode (mode : ExecutionMode) : RoutingDecision :=
  match mode with
  | .pythonOnly => RoutingDecision.pythonOnly "Forced mode"
  | .shadowDirect => RoutingDecision.shadow "Forced mode"
  | .canaryDirect => ⟨.canaryDirect, false, true, false, false, "Forced canary mode"⟩
  | .dualVerify => RoutingDecision.dualVerify "Forced mode"
  | .directOnly => RoutingDecision.directOnly "Forced mode"

/-- body of the `try` block of `ExecutionOrchestrator.execute`: dispatch on
the decision mode. -/
def OrchestratorCase.executeBody (o : OrchestratorCase)
    (decision : RoutingDecision) : Except Err ExecutionResult :=
  match decision.mode with
  | .pythonOnly => o.executePythonOnly
  | .shadowDirect => o.executeShadowMode
  | .canaryDirect => o.executeCanaryMode decision
  | .dualVerify => (o.executeDualVerify).map DualExecutionResult.pythonResult
  | .directOnly => o.executeDirectOnly decision

/-- `ExecutionOrchestrator.execute` for a resolved routing decision: the
per-mode body inside `try`; on any exception one fallback attempt at
`_execute_python_only`; if that also raises, a failed `ExecutionResult`
carrying the second error. An `Except.error` result would model an exception
escaping to the caller. -/
def OrchestratorCase.execute (o : OrchestratorCase)
    (decision : RoutingDecision) : Except Err ExecutionResult :=
  match o.executeBody decision with
  | .ok r => .ok r
  | .error _ =>
    match o.executePythonOnly with
    | .ok r => .ok r
    | .error e2 => .ok (failedFallbackResult e2)

/-- `ExecutionOrchestrator.execute_dual`: delegates to
`_execute_dual_verify` with no surrounding `try`. -/
def OrchestratorCase.executeDual (o : OrchestratorCase) :
    Except Err DualExecutionResult :=
  o.executeDualVerify

/-- mode recommendation step function exactly as the claim states it, written
over a free confidence value (the source's mode-name strings: oracle-only =
"python_only", canary = "canary_direct", dual-verify = "dual_verify",
direct-only = "direct_only"). -/
noncomputable def recommendedModeSpec (confidence : ℝ) : String :=
  if confidence < 0.95 then "python_only"
  else if confidence < 0.999 then "canary_direct"
  else if confidence < 0.9999 then "dual_verify"
  else "direct_only"

/-- Wilson lower bound at z = 3.29 written from the claim's formula: with
n = total, s = n − divergences, p = s/n, the value
max(0, centre − margin) for centre = (p + z²/(2n)) / (1 + z²/n) and
margin = z·sqrt(p(1−p)/n + z²/(4n²)) / (1 + z²/n). -/
noncomputable def wilsonLowerBoundSpec (total divergences : ℕ) : ℝ :=
  let z : ℝ := 3.29
  let n : ℝ := total
  let s : ℝ := n - divergences
  let p : ℝ := s / n
  let centre : ℝ := (p + z ^ 2 / (2 * n)) / (1 + z ^ 2 / n)
  let margin : ℝ :=
    z * Real.sqrt (p * (1 - p) / n + z ^ 2 / (4 * n ^ 2)) / (1 + z ^ 2 / n)
  max 0 (centre - margin)

theorem alookup_upsert {α : Type} (d : List (String × α)) (k : String) (v : α) :
    alookup (upsert d k v) k = some v := by
  induction d with
  | nil => simp [upsert, alookup]
  | cons hd t ih =>
    obtain ⟨k', v'⟩ := hd
    by_cases hk : k' = k
    · simp [upsert, hk, alookup]
    · simp [upsert, hk, alookup, ih]

theorem takeLastPy_of_le {α : Type} {C : ℕ} {l : List α} (h : l.length ≤ C) :
    takeLastPy C l = l := by
  unfold takeLastPy
  split
  · rfl
  · have : l.length - C = 0 := by omega
    simp [this]

theorem takeLastPy_length {α : Type} {C : ℕ} (hC : 0 < C) (l : List α) :
    (takeLastPy C l).length = min C l.length := by
  unfold takeLastPy
  split
  · omega
  · simp
    omega

theorem takeLastPy_eq_drop {α : Type} {C : ℕ} (hC : 0 < C) (l : List α) :
    takeLastPy C l = l.drop (l.length - C) := by
  unfold takeLastPy
  split
  · omega
  · rfl

theorem takeLastPy_append {α : Type} {C : ℕ} (hC : 0 < C) (xs ys : List α) :
    takeLastPy C (takeLastPy C xs ++ ys) = takeLastPy C (xs ++ ys) := by
  rcases le_or_lt xs.length C with hx | hx
  · rw [takeLastPy_of_le hx]
  · rw [takeLastPy_eq_drop hC, takeLastPy_eq_drop hC, takeLastPy_eq_drop hC]
    have hlen : (xs.drop (xs.length - C)).length = C := by
      simp
      omega
    rw [List.drop_append_eq_append_drop, List.drop_append_eq_append_drop]
    rw [List.drop_drop]
    simp [hlen]
    congr 1
    · congr 1
      omega
    · congr 1
      omega

/-- driver folding a sequence of insertions through
`DivergenceDatabase.store`, as the bound claims quantify over M insertions. -/
def storeAll (db : DivergenceDatabase) (rs : List DivergenceRecord) :
    DivergenceDatabase :=
  rs.foldl DivergenceDatabase.store db

theorem storeAll_lookup (C : ℕ) (node : String) (hC : 0 < C) :
    ∀ (rs : List DivergenceRecord) (db : DivergenceDatabase),
      db.maxRecordsPerNode = C →
      (∀ r ∈ rs, r.nodeId = node) →
      ((alookup db.records node).getD []).length ≤ C →
      ((alookup (storeAll db rs).records node).getD [])
        = takeLastPy C (((alookup db.records node).getD []) ++ rs) := by
  intro rs
  induction rs with
  | nil =>
    intro db _ _ hlen
    simp [storeAll]
    exact (takeLastPy_of_le hlen).symm
  | cons r rs ih =>
    intro db hmax hnode hlen
    have hr : r.nodeId = node := hnode r (by simp)
    have hrs : ∀ r' ∈ rs, r'.nodeId = node := fun r' hr' => hnode r' (by simp [hr'])
    have hstep : storeAll db (r :: rs) = storeAll (db.store r) rs := by
      simp [storeAll]
    rw [hstep]
    have hstore_rec :
        (alookup (db.store r).records node).getD []
          = takeLastPy C (((alookup db.records node).getD []) ++ [r]) := by
      unfold DivergenceDatabase.store
      rw [hr, hmax]
      rw [alookup_upsert]
      simp only [Option.getD_some]
      split
      · rfl
      · exact (takeLastPy_of_le (by omega)).symm
    have hstore_max : (db.store r).maxRecordsPerNode = C := by
      simp [DivergenceDatabase.store, hmax]
    have hstore_len : ((alookup (db.store r).records node).getD []).length ≤ C := by
      rw [hstore_rec, takeLastPy_length hC]
      omega
    rw [ih (db.store r) hstore_max hrs hstore_len, hstore_rec,
      takeLastPy_append hC]
    simp

/-- claim C9 counterexample: starting from an empty pending set, a second
`execute_shadow` call is enqueued rather than dropped — the pending count
reaches 2, exceeding a purported in-flight bound of 1, and no drop counter
exists anywhere in `ShadowExecutor`. -/
theorem shadow_no_backpressure_drop :
    (((ShadowExecutor.mk []).executeShadow "order_flow_v1" []).executeShadow
        "order_flow_v1" []).pendingCount = 2 ∧
    ¬ (((ShadowExecutor.mk []).executeShadow "order_flow_v1" []).executeShadow
        "order_flow_v1" []).pendingCount ≤ 1 := by
  constructor
  · rfl
  · decide

/-- claim C9 (corrected): `ShadowExecutor.execute_shadow` imposes no bound on
the in-flight shadow tasks: every call unconditionally enqueues exactly one
new task, growing `pending_count` by one, and no request is ever dropped (the
source has no capacity check and no drop counter). -/
theorem shadow_enqueue_unbounded_amended :
    ∀ (s : ShadowExecutor) (nodeId : String) (inputs : Output),
      (s.executeShadow nodeId inputs).pendingCount = s.pendingCount + 1 := by
  intro s nodeId inputs
  simp [ShadowExecutor.executeShadow, ShadowExecutor.pendingCount]

/-- claim C10: a caller-forced canary mode and a canary node override both
produce a decision with `use_direct=true` and `use_python=false`, i.e. the
request goes to the candidate; the decision is moreover independent of the
hash parameters, the inputs and the random draw, bypassing the deterministic
5% hash draw of confidence-derived canary routing; and the orchestrator's own
`_adjust_decision_for_mode` produces the same fields for a forced canary. -/
theorem forced_canary_bypasses_draw :
    (∀ (router : ExecutionRouter) (P : HashParams) (nodeId : String)
       (inputs : Output) (rand : ℚ),
       (router.route P nodeId inputs (some .canaryDirect) rand).useDirect = true ∧
       (router.route P nodeId inputs (some .canaryDirect) rand).usePython = false) ∧
    (∀ (router : ExecutionRouter) (P : HashParams) (nodeId : String)
       (inputs : Output) (rand : ℚ),
       alookup router.config.nodeOverrides nodeId = some .canaryDirect →
       (router.route P nodeId inputs none rand).useDirect = true ∧
       (router.route P nodeId inputs none rand).usePython = false) ∧
    ((adjustDecisionForMode .canaryDirect).useDirect = true ∧
     (adjustDecisionForMode .canaryDirect).usePython = false) ∧
    (∀ (router : ExecutionRouter) (P P' : HashParams) (nodeId : String)
       (inputs inputs' : Output) (rand rand' : ℚ),
       router.route P nodeId inputs (some .canaryDirect) rand
         = router.route P' nodeId inputs' (some .canaryDirect) rand') := by
  refine ⟨?_, ?_, ⟨rfl, rfl⟩, ?_⟩
  · intro router P nodeId inputs rand
    exact ⟨rfl, rfl⟩
  · intro router P nodeId inputs rand hov
    unfold ExecutionRouter.route
    rw [hov]
    exact ⟨rfl, rfl⟩
  · intro router P P' nodeId inputs inputs' rand rand'
    rfl

/-- witness for C10 at a concrete router whose node override pins
`canary_direct`. -/
theorem forced_canary_bypasses_draw_witness :
    ((ExecutionRouter.mk ⟨[]⟩
        ⟨0.95, 0.999, 0.9999, 0.05, 0.01, true,
         [("order_flow_v1", .canaryDirect)]⟩).route
        ⟨fun _ => "", fun _ => 0, fun _ => ""⟩ "order_flow_v1" [] none 0).useDirect
      = true ∧
    ((ExecutionRouter.mk ⟨[]⟩
        ⟨0.95, 0.999, 0.9999, 0.05, 0.01, true,
         [("order_flow_v1", .canaryDirect)]⟩).route
        ⟨fun _ => "", fun _ => 0, fun _ => ""⟩ "order_flow_v1" [] none 0).usePython
      = false :=
  forced_canary_bypasses_draw.2.1
    (ExecutionRouter.mk ⟨[]⟩
      ⟨0.95, 0.999, 0.9999, 0.05, 0.01, true, [("order_flow_v1", .canaryDirect)]⟩)
    ⟨fun _ => "", fun _ => 0, fun _ => ""⟩ "order_flow_v1" [] 0
    (by simp [alookup])

/-- claim C7: `get_recommended_mode` is exactly the step function of the
node's confidence with transitions at 0.95, 0.999 and 0.9999. -/
theorem recommended_mode_step_function :
    ∀ (tr : ConfidenceTracker) (nodeId : String),
      tr.getRecommendedMode nodeId = recommendedModeSpec (tr.getConfidence nodeId) := by
  intro tr nodeId
  rfl

/-- claim C6: for a tracker whose per-node entries carry their own key as
`node_id` (as every entry built by `record_execution` or `deserialize` does),
`deserialize(serialize(tracker))` reconstructs the identical metrics mapping —
all counters and `last_updated` per node — and therefore yields the same
confidence as the original for every node. -/
theorem confidence_tracker_serialize_roundtrip :
    ∀ (tr : ConfidenceTracker),
      (∀ p ∈ tr.metrics, (p.2).nodeId = p.1) →
      ConfidenceTracker.deserialize tr.serialize = tr ∧
      (∀ nodeId : String,
        (ConfidenceTracker.deserialize tr.serialize).getConfidence nodeId
          = tr.getConfidence nodeId) := by
  intro tr hwf
  have hmetrics : (ConfidenceTracker.deserialize tr.serialize).metrics = tr.metrics := by
    obtain ⟨l⟩ := tr
    simp only [ConfidenceTracker.deserialize, ConfidenceTracker.serialize, List.map_map]
    induction l with
    | nil => rfl
    | cons p t ih =>
      obtain ⟨k, m⟩ := p
      have hk : m.nodeId = k := hwf (k, m) (by simp)
      have ht : ∀ q ∈ t, (q.2).nodeId = q.1 := fun q hq => hwf q (by simp [hq])
      simp only [List.map_cons, List.cons.injEq]
      constructor
      · obtain ⟨nid, a, b, c, d, e⟩ := m
        simp_all
      · exact ih ht
  have heq : ConfidenceTracker.deserialize tr.serialize = tr := by
    cases hdes : ConfidenceTracker.deserialize tr.serialize
    cases tr
    rw [hdes] at hmetrics
    simpa using hmetrics
  exact ⟨heq, fun nodeId => by rw [heq]⟩

/-- witness for C6 at a concrete two-node tracker. -/
theorem confidence_tracker_serialize_roundtrip_witness :
    ConfidenceTracker.deserialize
        (ConfidenceTracker.serialize
          ⟨[("payment_v1", ⟨"payment_v1", 150, 3, 1, 2, 1700000000⟩),
            ("order_v2", ⟨"order_v2", 42, 0, 0, 0, 1700000050⟩)]⟩)
      = ⟨[("payment_v1", ⟨"payment_v1", 150, 3, 1, 2, 1700000000⟩),
          ("order_v2", ⟨"order_v2", 42, 0, 0, 0, 1700000050⟩)]⟩ :=
  (confidence_tracker_serialize_roundtrip
    ⟨[("payment_v1", ⟨"payment_v1", 150, 3, 1, 2, 1700000000⟩),
      ("order_v2", ⟨"order_v2", 42, 0, 0, 0, 1700000050⟩)]⟩
    (by decide)).1

/-- claim C5: after M > C insertions for one node into a store of per-node
capacity C, the node holds exactly C records, eviction is strictly
oldest-first — the retained list is the suffix of the insertion sequence from
position M − C, whose head (the oldest retained record) is the record
inserted at position M − C — and `get_by_node` returns the retained records
newest first, windowed by offset and limit. -/
theorem divergence_store_oldest_first_bound :
    ∀ (C : ℕ) (node : String) (rs : List DivergenceRecord),
      0 < C → C < rs.length → (∀ r ∈ rs, r.nodeId = node) →
      ((alookup (storeAll ⟨C, []⟩ rs).records node).getD [])
          = rs.drop (rs.length - C) ∧
      ((alookup (storeAll ⟨C, []⟩ rs).records node).getD []).length = C ∧
      ((alookup (storeAll ⟨C, []⟩ rs).records node).getD []).head?
          = rs[rs.length - C]? ∧
      (∀ limit offset : ℕ,
        (storeAll ⟨C, []⟩ rs).getByNode node limit offset
          = ((rs.drop (rs.length - C)).reverse.drop offset).take limit) := by
  intro C node rs hC hM hnode
  have h := storeAll_lookup C node hC rs ⟨C, []⟩ rfl hnode (by simp [alookup])
  simp only [alookup, Option.getD_none, List.nil_append] at h
  rw [takeLastPy_eq_drop hC] at h
  refine ⟨h, ?_, ?_, ?_⟩
  · rw [h]
    simp
    omega
  · rw [h]
    exact List.head?_drop rs (rs.length - C)
  · intro limit offset
    unfold DivergenceDatabase.getByNode
    rw [h]

/-- witness for C5: capacity 1, two insertions; the node retains exactly one
record. -/
theorem divergence_store_oldest_first_bound_witness :
    ((alookup
        (storeAll ⟨1, []⟩
          [(⟨"d1", "order_flow_v1", [], [], [], ⟨[], 0⟩,
             "2025-01-01T00:00:00Z", "shadow", []⟩ : DivergenceRecord),
           (⟨"d2", "order_flow_v1", [], [], [], ⟨[], 0⟩,
             "2025-01-01T00:00:01Z", "shadow", []⟩ : DivergenceRecord)]).records
        "order_flow_v1").getD []).length = 1 :=
  (divergence_store_oldest_first_bound 1 "order_flow_v1"
    [⟨"d1", "order_flow_v1", [], [], [], ⟨[], 0⟩,
      "2025-01-01T00:00:00Z", "shadow", []⟩,
     ⟨"d2", "order_flow_v1", [], [], [], ⟨[], 0⟩,
      "2025-01-01T00:00:01Z", "shadow", []⟩]
    (by decide) (by decide) (by decide)).2.1

/-- claim C1 counterexample: with both handlers raising, `execute_dual`
propagates the oracle's exception to the caller — the fallback call to
`_execute_python_only` inside the `except` branch of `_execute_dual_verify`
is itself unprotected, so an exception does escape. -/
theorem executeDual_raises_on_oracle_failure :
    (OrchestratorCase.mk (.error "oracle handler failed")
        (some (.error "candidate handler failed")) none).executeDual
      = .error "oracle handler failed" := rfl

/-- claim C1 (corrected): for every combination of handler outcomes,
`execute` returns a result and never raises: on an unhandled exception from
the per-mode body it attempts the oracle fallback exactly once, returning the
oracle result when that succeeds and otherwise a failed `ExecutionResult`
carrying the second error. `execute_dual`, however, returns a result exactly
when the oracle handler succeeds: when the oracle raises, the exception
escapes to the caller (the dual-path oracle fallback is unprotected). -/
theorem orchestrator_never_raises_amended :
    (∀ (o : OrchestratorCase) (decision : RoutingDecision),
       ∃ r, o.execute decision = .ok r) ∧
    (∀ (o : OrchestratorCase) (decision : RoutingDecision) (e : Err) (out : Output),
       o.executeBody decision = .error e → o.pythonRun = .ok out →
       o.execute decision = .ok (pythonSuccess out)) ∧
    (∀ (o : OrchestratorCase) (decision : RoutingDecision) (e e2 : Err),
       o.executeBody decision = .error e → o.pythonRun = .error e2 →
       o.execute decision = .ok (failedFallbackResult e2)) ∧
    (∀ (o : OrchestratorCase) (e : Err),
       o.executeDual = .error e ↔ o.pythonRun = .error e) := by
  refine ⟨?_, ?_, ?_, ?_⟩
  · intro o decision
    cases hb : o.executeBody decision with
    | ok r => exact ⟨r, by simp [OrchestratorCase.execute, hb]⟩
    | error e =>
      cases hp : o.pythonRun with
      | ok out =>
        exact ⟨pythonSuccess out,
          by simp [OrchestratorCase.execute, hb, OrchestratorCase.executePythonOnly, hp]⟩
      | error e2 =>
        exact ⟨failedFallbackResult e2,
          by simp [OrchestratorCase.execute, hb, OrchestratorCase.executePythonOnly, hp]⟩
  · intro o decision e out hb hp
    simp [OrchestratorCase.execute, hb, OrchestratorCase.executePythonOnly, hp]
  · intro o decision e e2 hb hp
    simp [OrchestratorCase.execute, hb, OrchestratorCase.executePythonOnly, hp]
  · intro o e
    constructor
    · intro hd
      unfold OrchestratorCase.executeDual OrchestratorCase.executeDualVerify at hd
      cases hdr : o.directRun with
      | none =>
        rw [hdr] at hd
        cases hp : o.pythonRun with
        | ok out => simp [OrchestratorCase.executePythonOnly, hp] at hd
        | error e' =>
          simp [OrchestratorCase.executePythonOnly, hp] at hd
          simp [hp, hd]
      | some dRun =>
        rw [hdr] at hd
        cases hp : o.pythonRun with
        | ok pOut =>
          cases dRun with
          | ok dOut => simp [hp] at hd
          | error e' =>
            rw [hp] at hd
            simp [OrchestratorCase.executePythonOnly, hp] at hd
        | error e' =>
          rw [hp] at hd
          simp [OrchestratorCase.executePythonOnly, hp] at hd
          simp [hp, hd]
    · intro hp
      unfold OrchestratorCase.executeDual OrchestratorCase.executeDualVerify
      cases hdr : o.directRun with
      | none => simp [OrchestratorCase.executePythonOnly, hp]
      | some dRun =>
        cases dRun with
        | ok dOut => simp [hp, OrchestratorCase.executePythonOnly]
        | error e' => simp [hp, OrchestratorCase.executePythonOnly]

/-- witness for C1 at a concrete case whose oracle raises in python-only
mode: the per-mode body and the single fallback both fail, and `execute`
returns the failed result carrying the fallback's error. -/
theorem orchestrator_never_raises_amended_witness :
    (OrchestratorCase.mk (.error "no handler registered") none none).execute
        (RoutingDecision.pythonOnly "Forced mode")
      = .ok (failedFallbackResult "no handler registered") :=
  orchestrator_never_raises_amended.2.2.1
    (OrchestratorCase.mk (.error "no handler registered") none none)
    (RoutingDecision.pythonOnly "Forced mode")
    "no handler registered" "no handler registered" rfl rfl

theorem compareDictKeys_nil (cmp : OutputComparator) (d1 d2 : List (String × Value))
    (path : String) : compareDictKeys cmp [] d1 d2 path = [] := by
  unfold compareDictKeys
  rfl

theorem compareDictKeys_single (cmp : OutputComparator) (k : String)
    (v1 v2 : Value) (d1 d2 : List (String × Value)) (path : String)
    (h1 : dlookup d1 k = some v1) (h2 : dlookup d2 k = some v2) :
    compareDictKeys cmp [k] d1 d2 path
      = compareRecursive cmp v1 v2 (path ++ "." ++ k) := by
  unfold compareDictKeys
  split <;> simp_all [compareDictKeys_nil]

theorem compare_single_key (cmp : OutputComparator) (k : String) (v1 v2 : Value) :
    cmp.compare [(k, v1)] [(k, v2)]
      = (if (compareRecursive cmp v1 v2 ("root" ++ "." ++ k)).isEmpty then none
         else some ⟨compareRecursive cmp v1 v2 ("root" ++ "." ++ k),
                    (compareRecursive cmp v1 v2 ("root" ++ "." ++ k)).length⟩) := by
  unfold OutputComparator.compare
  rw [show compareRecursive cmp (.vdict [(k, v1)]) (.vdict [(k, v2)]) "root"
        = compareDictKeys cmp (unionKeys [(k, v1)] [(k, v2)]) [(k, v1)] [(k, v2)] "root" by
      unfold compareRecursive
      simp [isNull, typesCompatible, sameCtor]]
  rw [show unionKeys [(k, v1)] [(k, v2)] = [k] by simp [unionKeys]]
  rw [compareDictKeys_single cmp k v1 v2 _ _ _ (by simp [dlookup]) (by simp [dlookup])]

theorem compareRecursive_float (cmp : OutputComparator) (a b : JNum) (path : String) :
    compareRecursive cmp (.vfloat a) (.vfloat b) path
      = (compareNumbers cmp (.vfloat a) (.vfloat b) path).toList := by
  unfold compareRecursive
  simp [isNull, typesCompatible, sameCtor, isFloatDec]

theorem compareRecursive_bool (cmp : OutputComparator) (a b : Bool) (path : String) :
    compareRecursive cmp (.vbool a) (.vbool b) path
      = if a == b then [] else [⟨path, "value_mismatch"⟩] := by
  unfold compareRecursive
  simp [isNull, typesCompatible, sameCtor, isFloatDec, pyPrimEq, numericValue]
  cases a <;> cases b <;> simp

/-- claim C2: in dual-verify mode with the oracle succeeding, (a) whenever the
candidate also succeeds and the comparator finds the outputs unequal,
`execute_dual` returns a `DualExecutionResult` whose primary result is the
oracle's result (path "python", oracle output) and whose diverged flag is
true; (b) whenever the candidate fails, the returned primary result still
carries the oracle output with diverged true; and (c) `execute` in dual-verify
mode always returns the oracle's result, whatever the candidate did. -/
theorem dual_verify_returns_oracle_result :
    ∀ (o : OrchestratorCase) (c : OutputComparator) (pOut : Output),
      o.pythonRun = .ok pOut → o.comparator = some c →
      (∀ dOut : Output, o.directRun = some (.ok dOut) →
         c.compare pOut dOut ≠ none →
         ∃ dual, o.executeDual = .ok dual ∧
           dual.primaryResult = dual.pythonResult ∧
           dual.pythonResult.output = pOut ∧
           dual.pythonResult.pathUsed = "python" ∧
           dual.diverged = true) ∧
      (∀ e : Err, o.directRun = some (.error e) →
         ∃ dual, o.executeDual = .ok dual ∧
           dual.primaryResult.output = pOut ∧
           dual.diverged = true) ∧
      (∀ reason : String,
         o.execute (RoutingDecision.dualVerify reason) = .ok (pythonSuccess pOut)) := by
  intro o c pOut hp hc
  refine ⟨?_, ?_, ?_⟩
  · intro dOut hdr hne
    obtain ⟨rep, hrep⟩ := Option.ne_none_iff_exists'.mp hne
    refine ⟨⟨pythonSuccess pOut, some (directSuccess dOut), true, some (.report rep)⟩, ?_, rfl, rfl, rfl, rfl⟩
    unfold OrchestratorCase.executeDual OrchestratorCase.executeDualVerify
    rw [hdr, hp, hc]
    simp [hrep]
  · intro e hdr
    refine ⟨⟨pythonSuccess pOut, none, true, some (.errorDetail e)⟩, ?_, rfl, rfl⟩
    unfold OrchestratorCase.executeDual OrchestratorCase.executeDualVerify
    rw [hdr, hp]
    simp [OrchestratorCase.executePythonOnly, hp]
  · intro reason
    have hbody : o.executeBody (RoutingDecision.dualVerify reason)
        = (o.executeDualVerify).map DualExecutionResult.pythonResult := rfl
    unfold OrchestratorCase.execute
    rw [hbody]
    unfold OrchestratorCase.executeDualVerify
    cases hdr : o.directRun with
    | none =>
      simp [OrchestratorCase.executePythonOnly, hp, pythonSuccess, Except.map]
    | some dRun =>
      cases dRun with
      | ok dOut =>
        rw [hp]
        simp [Except.map, DualExecutionResult.pythonResult, pythonSuccess]
      | error e =>
        rw [hp]
        simp [OrchestratorCase.executePythonOnly, hp, Except.map,
          DualExecutionResult.pythonResult, pythonSuccess]

/-- witness for C2 at a concrete case: oracle returns `{"x": True}`, candidate
`{"x": False}`, comparator at default epsilon reports a value mismatch. -/
theorem dual_verify_returns_oracle_result_witness :
    ∃ dual,
      (OrchestratorCase.mk (.ok [("x", .vbool true)])
          (some (.ok [("x", .vbool false)]))
          (some ⟨1/1000000000, 1000, fun _ => none⟩)).executeDual = .ok dual ∧
      dual.primaryResult = dual.pythonResult ∧
      dual.pythonResult.output = [("x", .vbool true)] ∧
      dual.pythonResult.pathUsed = "python" ∧
      dual.diverged = true :=
  ((dual_verify_returns_oracle_result
      (OrchestratorCase.mk (.ok [("x", .vbool true)])
        (some (.ok [("x", .vbool false)]))
        (some ⟨1/1000000000, 1000, fun _ => none⟩))
      ⟨1/1000000000, 1000, fun _ => none⟩
      [("x", .vbool true)] rfl rfl).1
    [("x", .vbool false)] rfl
    (by rw [compare_single_key, compareRecursive_bool]; simp))

/-- claim C3: `get_confidence` returns 0.0 whenever the node's total execution
count is below MIN_SAMPLE_SIZE = 100 (whatever the divergence count, even one
exceeding the total), and also for untracked nodes; at or above the minimum it
returns exactly the claim's Wilson lower bound at z = 3.29:
max(0, centre − margin) with p = (n − divergences)/n,
centre = (p + z²/(2n)) / (1 + z²/n) and
margin = z·sqrt(p(1−p)/n + z²/(4n²)) / (1 + z²/n). -/
theorem confidence_gate_and_wilson_bound :
    (∀ (tr : ConfidenceTracker) (nodeId : String) (m : RuntimeMetrics),
       alookup tr.metrics nodeId = some m →
       (m.totalExecutions < 100 → tr.getConfidence nodeId = 0) ∧
       (100 ≤ m.totalExecutions →
          tr.getConfidence nodeId
            = wilsonLowerBoundSpec m.totalExecutions m.divergences)) ∧
    (∀ (tr : ConfidenceTracker) (nodeId : String),
       alookup tr.metrics nodeId = none → tr.getConfidence nodeId = 0) := by
  constructor
  · intro tr nodeId m hm
    constructor
    · intro hlt
      unfold ConfidenceTracker.getConfidence
      rw [hm]
      simp [MIN_SAMPLE_SIZE, hlt]
    · intro hge
      unfold ConfidenceTracker.getConfidence
      rw [hm]
      have : ¬ m.totalExecutions < MIN_SAMPLE_SIZE := by
        unfold MIN_SAMPLE_SIZE
        omega
      simp only [this, if_false]
      unfold wilsonLowerBoundSpec Z_SCORE
      rfl
  · intro tr nodeId hm
    unfold ConfidenceTracker.getConfidence
    rw [hm]

/-- witness for C3 at a concrete tracker with 50 executions and 60 recorded
divergences: below the minimum sample size the confidence is 0 regardless of
the divergence count. -/
theorem confidence_gate_and_wilson_bound_witness :
    ConfidenceTracker.getConfidence
        ⟨[("payment_v1", ⟨"payment_v1", 50, 60, 0, 0, 1700000000⟩)]⟩ "payment_v1"
      = 0 :=
  ((confidence_gate_and_wilson_bound.1
      ⟨[("payment_v1", ⟨"payment_v1", 50, 60, 0, 0, 1700000000⟩)]⟩ "payment_v1"
      ⟨"payment_v1", 50, 60, 0, 0, 1700000000⟩ rfl).1 (by decide))

theorem compareNumbers_fin_none_iff (cmp : OutputComparator) (a b : ℚ) (path : String) :
    compareNumbers cmp (.vfloat (.fin a)) (.vfloat (.fin b)) path = none ↔
      (|a - b| ≤ cmp.epsilon ∨
        ((1 < |a| ∨ 1 < |b|) ∧ |a - b| / max |a| |b| ≤ cmp.epsilon)) := by
  unfold compareNumbers
  simp only [numericValue, JNum.isNan, JNum.isInf, JNum.absSub, JNum.leQ,
    JNum.gtOneAbs, JNum.maxAbs, JNum.divJ, Bool.and_self, Bool.false_and,
    Bool.and_false, Bool.or_self, Bool.false_or, Bool.or_false,
    decide_eq_true_eq, Bool.false_eq_true, if_false]
  by_cases h1 : |a - b| ≤ cmp.epsilon
  · simp [h1]
  · by_cases h2 : 1 < |a| ∨ 1 < |b|
    · have hb2 : (decide (1 < |a|) || decide (1 < |b|)) = true := by
        rcases h2 with h | h <;> simp [h]
      have hmaxpos : (0:ℚ) < |a| ⊔ |b| := by
        rcases h2 with h | h
        · exact lt_of_le_of_lt (by norm_num) (lt_of_lt_of_le h (le_max_left _ _))
        · exact lt_of_le_of_lt (by norm_num) (lt_of_lt_of_le h (le_max_right _ _))
      have hmax0 : ¬ (|a| ⊔ |b| = 0) := by
        intro h0
        rw [h0] at hmaxpos
        exact absurd hmaxpos (by norm_num)
      simp only [h1, if_false, hb2, if_true, hmax0, JNum.leQ, decide_eq_true_eq]
      by_cases h4 : |a - b| / (|a| ⊔ |b|) ≤ cmp.epsilon
      · simp [h4, h2]
      · simp [h4, h1]
    · have hb2 : (decide (1 < |a|) || decide (1 < |b|)) = false := by
        push_neg at h2
        simp [not_lt.mpr h2.1, not_lt.mpr h2.2]
      simp [h1, hb2, h2]

theorem compare_single_float_none_iff (cmp : OutputComparator) (k : String)
    (a b : JNum) :
    (cmp.compare [(k, .vfloat a)] [(k, .vfloat b)] = none ↔
      compareNumbers cmp (.vfloat a) (.vfloat b) ("root" ++ "." ++ k) = none) := by
  rw [compare_single_key, compareRecursive_float]
  cases h : compareNumbers cmp (.vfloat a) (.vfloat b) ("root" ++ "." ++ k) <;>
    simp [h]

/-- claim C4 counterexample: with the comparator's default epsilon (1e-9),
`compare({"x": 1.0000001}, {"x": 1.0000002})` reports a numeric mismatch —
the absolute difference is 1e-7 > 1e-9 and the relative difference about
1e-7 > 1e-9 — contradicting the claim that this pair is equal under the
default epsilon (the repository's own test checks this pair under
epsilon=1e-6, where it is equal). -/
theorem comparator_default_epsilon_not_equal :
    (OutputComparator.mk (1/1000000000) 1000 (fun _ => none)).compare
        [("x", .vfloat (.fin (10000001/10000000)))]
        [("x", .vfloat (.fin (10000002/10000000)))] ≠ none := by
  rw [Ne, compare_single_float_none_iff, compareNumbers_fin_none_iff]
  intro h
  have hab : |(10000001/10000000 : ℚ) - 10000002/10000000| = 1/10000000 := by
    rw [abs_sub_comm, abs_of_pos] <;> norm_num
  have ha : |(10000001/10000000 : ℚ)| = 10000001/10000000 := abs_of_pos (by norm_num)
  have hb : |(10000002/10000000 : ℚ)| = 10000002/10000000 := abs_of_pos (by norm_num)
  rw [hab, ha, hb] at h
  rcases h with h | ⟨_, h⟩
  · norm_num at h
  · rw [max_eq_right (by norm_num)] at h
    rw [div_le_iff₀ (by norm_num)] at h
    norm_num at h

/-- claim C4 (corrected): the general numeric rule holds as stated — two
finite floats are equal iff the absolute difference is at most epsilon, or
the relative difference is at most epsilon when the larger magnitude exceeds
1 — and so do the NaN cases and the epsilon=1e-9 case for (1.0, 1.001); but
the pair (1.0000001, 1.0000002) is NOT equal under the default epsilon 1e-9
(absolute and relative difference are both about 1e-7); it is equal under
epsilon=1e-6, the value the repository's own test uses for this pair. -/
theorem comparator_numeric_tolerance_amended :
    (∀ (cmp : OutputComparator) (a b : ℚ) (path : String),
       compareNumbers cmp (.vfloat (.fin a)) (.vfloat (.fin b)) path = none ↔
         (|a - b| ≤ cmp.epsilon ∨
           ((1 < |a| ∨ 1 < |b|) ∧ |a - b| / max |a| |b| ≤ cmp.epsilon))) ∧
    ((OutputComparator.mk (1/1000000) 1000 (fun _ => none)).compare
        [("x", .vfloat (.fin (10000001/10000000)))]
        [("x", .vfloat (.fin (10000002/10000000)))] = none) ∧
    ((OutputComparator.mk (1/1000000000) 1000 (fun _ => none)).compare
        [("x", .vfloat (.fin 1))] [("x", .vfloat (.fin (1001/1000)))] ≠ none) ∧
    ((OutputComparator.mk (1/1000000000) 1000 (fun _ => none)).compare
        [("x", .vfloat .nan)] [("x", .vfloat .nan)] = none) ∧
    ((OutputComparator.mk (1/1000000000) 1000 (fun _ => none)).compare
        [("x", .vfloat .nan)] [("x", .vfloat (.fin 1))] ≠ none) := by
  refine ⟨compareNumbers_fin_none_iff, ?_, ?_, ?_, ?_⟩
  · rw [compare_single_float_none_iff, compareNumbers_fin_none_iff]
    left
    have hab : |(10000001/10000000 : ℚ) - 10000002/10000000| = 1/10000000 := by
      rw [abs_sub_comm, abs_of_pos] <;> norm_num
    rw [hab]
    norm_num
  · rw [Ne, compare_single_float_none_iff, compareNumbers_fin_none_iff]
    intro h
    have hab : |(1 : ℚ) - 1001/1000| = 1/1000 := by
      rw [abs_sub_comm, abs_of_pos] <;> norm_num
    have ha : |(1 : ℚ)| = 1 := abs_of_pos (by norm_num)
    have hb : |(1001/1000 : ℚ)| = 1001/1000 := abs_of_pos (by norm_num)
    rw [hab, ha, hb] at h
    rcases h with h | ⟨_, h⟩
    · norm_num at h
    · rw [max_eq_right (by norm_num)] at h
      rw [div_le_iff₀ (by norm_num)] at h
      norm_num at h
  · rw [compare_single_float_none_iff]
    rfl
  · rw [Ne, compare_single_float_none_iff]
    intro h
    exact absurd h (by simp [compareNumbers, numericValue, JNum.isNan])

/-- claim C8: with no forced mode and no node override, when the node has
enough samples and its confidence lies in the canary band, the routing
decision is independent of the `random.random()` draw and equals the
deterministic hash-based canary decision over the node id and the canonical
sorted-keys JSON encoding of the inputs — so two calls with equal
`(node, inputs)` (and any random draws) select the same canary side, across
retries and across runs. -/
theorem canary_routing_deterministic :
    ∀ (router : ExecutionRouter) (P : HashParams) (nodeId : String)
      (inputs : Output) (m : RuntimeMetrics) (rand1 rand2 : ℚ),
      alookup router.config.nodeOverrides nodeId = none →
      alookup router.confidenceTracker.metrics nodeId = some m →
      ¬ m.totalExecutions < MIN_SAMPLE_SIZE →
      ¬ router.confidenceTracker.getConfidence nodeId
          < router.config.canaryThreshold →
      router.confidenceTracker.getConfidence nodeId
          < router.config.dualVerifyThreshold →
      router.route P nodeId inputs none rand1
          = router.route P nodeId inputs none rand2 ∧
      router.route P nodeId inputs none rand1
          = router.canaryDecision P nodeId inputs := by
  intro router P nodeId inputs m rand1 rand2 hov hm hmin hlow hdual
  unfold ExecutionRouter.route
  rw [hov, hm]
  simp only [if_neg hmin, if_neg hlow, if_pos hdual]
  exact ⟨trivial, trivial⟩

/-- witness for C8: a node with 100 clean samples against canary and
dual-verify thresholds placed at −1 and 2, so that its confidence (which is
at least 0 and below 2) provably lies in the canary band; the route is then
identical for the random draws 0 and 1. -/
theorem canary_routing_deterministic_witness :
    (ExecutionRouter.mk ⟨[("order_flow_v1", ⟨"order_flow_v1", 100, 0, 0, 0, 0⟩)]⟩
        ⟨-1, 2, 3, 1/20, 1/100, true, []⟩).route
        ⟨fun _ => "", fun _ => 0, fun _ => ""⟩ "order_flow_v1" [] none 0
      = (ExecutionRouter.mk ⟨[("order_flow_v1", ⟨"order_flow_v1", 100, 0, 0, 0, 0⟩)]⟩
          ⟨-1, 2, 3, 1/20, 1/100, true, []⟩).route
          ⟨fun _ => "", fun _ => 0, fun _ => ""⟩ "order_flow_v1" [] none 1 := by
  have hconf0 :
      (0:ℝ) ≤ ConfidenceTracker.getConfidence
        ⟨[("order_flow_v1", ⟨"order_flow_v1", 100, 0, 0, 0, 0⟩)]⟩ "order_flow_v1" := by
    unfold ConfidenceTracker.getConfidence
    simp only [alookup, if_true]
    rw [if_neg (by simp [MIN_SAMPLE_SIZE])]
    exact le_sup_left
  have hconf2 :
      ConfidenceTracker.getConfidence
        ⟨[("order_flow_v1", ⟨"order_flow_v1", 100, 0, 0, 0, 0⟩)]⟩ "order_flow_v1"
        < (2:ℝ) := by
    unfold ConfidenceTracker.getConfidence
    simp only [alookup, if_true]
    rw [if_neg (by simp [MIN_SAMPLE_SIZE])]
    rw [sup_lt_iff]
    refine ⟨by norm_num, ?_⟩
    have hz : Z_SCORE = (3.29:ℝ) := rfl
    rw [hz]
    push_cast
    generalize hS : Real.sqrt _ = S
    have hS0 : (0:ℝ) ≤ S := hS ▸ Real.sqrt_nonneg _
    have hterm : (0:ℝ) ≤ 3.29 * S / (1 + (3.29:ℝ) ^ 2 / 100) := by positivity
    have hcen : (((100:ℝ) - 0) / 100 + (3.29:ℝ) ^ 2 / (2 * 100))
        / (1 + (3.29:ℝ) ^ 2 / 100) < 2 := by
      norm_num
    linarith
  exact (canary_routing_deterministic
    (ExecutionRouter.mk ⟨[("order_flow_v1", ⟨"order_flow_v1", 100, 0, 0, 0, 0⟩)]⟩
      ⟨-1, 2, 3, 1/20, 1/100, true, []⟩)
    ⟨fun _ => "", fun _ => 0, fun _ => ""⟩ "order_flow_v1" []
    ⟨"order_flow_v1", 100, 0, 0, 0, 0⟩ 0 1
    rfl rfl (by decide)
    (fun hlt => absurd (lt_of_le_of_lt hconf0 hlt) (by norm_num))
    (lt_of_lt_of_le hconf2 (by norm_num))).1
